import Mathlib

/-!
Verification of the RAG Vector Store Writer core pipeline.

This file gives a shallow embedding of the repository's Python code
(`src/agent/validation.py`, `src/agent/writers/pinecone.py`,
`src/agent/writers/qdrant.py`) and proves properties of the embedded
definitions.  Python values flowing through the untyped input map are
modelled by the inductive `PyVal`; Python dicts are ordered association
lists; machine strings are Lean `String`s (lists of characters).
Fallible code returns `Except String`.
-/

/-- Model of a Python/JSON value as it appears in the actor input map.
Floats carry a rational payload (their numeric value is never branched on
by the code under verification, only their runtime type). -/
inductive PyVal where
  | vNone : PyVal
  | vBool : Bool → PyVal
  | vInt : Int → PyVal
  | vFloat : Rat → PyVal
  | vStr : String → PyVal
  | vList : List PyVal → PyVal
  | vDict : List (String × PyVal) → PyVal

/-! ## Python string primitives -/

/-- Characters stripped by Python's `str.strip()` (the ASCII/Latin-1
whitespace characters for which `str.isspace` holds). -/
def pyWsChars : List Char :=
  [' ', '\t', '\n', '\r', '\x0b', '\x0c', '\x1c', '\x1d', '\x1e', '\x1f',
   '\x85', '\xa0']

/-- `str.strip()` on a character list. -/
def pyStripL (l : List Char) : List Char :=
  ((l.dropWhile pyWsChars.contains).reverse.dropWhile pyWsChars.contains).reverse

/-- `str.strip()`. -/
def pyStrip (s : String) : String := ⟨pyStripL s.data⟩

/-- `str.rstrip("/")`. -/
def pyRstripSlash (s : String) : String :=
  ⟨(s.data.reverse.dropWhile (· == '/')).reverse⟩

/-- `str.lower()` (ASCII case folding; the inputs under verification are
ASCII). -/
def pyLower (s : String) : String := ⟨s.data.map Char.toLower⟩

/-! ## Regex pattern embeddings (validation.py lines 39-59)

All five patterns are anchored `^...$` patterns used through `re.match`.
In Python, `$` matches at the end of the string **or just before a
trailing newline**; `pyDollarMatch` reproduces this. -/

/-- Python `re.match` semantics for an anchored `^core$` pattern:
the whole string matches, or the string minus one trailing newline
matches. -/
def pyDollarMatch (core : List Char → Bool) (l : List Char) : Bool :=
  core l ||
    (match l.getLast? with
     | some c => c == '\n' && core l.dropLast
     | none => false)

/-- Character class `[a-zA-Z0-9_-]`. -/
def isNameTail (c : Char) : Bool := c.isAlphanum || c == '_' || c == '-'

/-- `_INDEX_NAME_PATTERN = ^[a-zA-Z0-9][a-zA-Z0-9_-]{0,63}$` (core). -/
def indexNameCore : List Char → Bool
  | [] => false
  | c :: rest => c.isAlphanum && rest.all isNameTail && rest.length ≤ 63

def indexNameOk (s : String) : Bool := pyDollarMatch indexNameCore s.data

/-- `_DATASET_ID_PATTERN = ^[a-zA-Z0-9][a-zA-Z0-9_~-]{0,63}$` (core). -/
def datasetIdCore : List Char → Bool
  | [] => false
  | c :: rest =>
    c.isAlphanum &&
      rest.all (fun d => d.isAlphanum || d == '_' || d == '~' || d == '-') &&
      rest.length ≤ 63

def datasetIdOk (s : String) : Bool := pyDollarMatch datasetIdCore s.data

/-- `_FIELD_NAME_PATTERN = ^[a-zA-Z_][a-zA-Z0-9_.]{0,63}$` (core). -/
def fieldNameCore : List Char → Bool
  | [] => false
  | c :: rest =>
    (c.isAlpha || c == '_') &&
      rest.all (fun d => d.isAlphanum || d == '_' || d == '.') &&
      rest.length ≤ 63

def fieldNameOk (s : String) : Bool := pyDollarMatch fieldNameCore s.data

/-- `_NAMESPACE_PATTERN = ^[a-zA-Z0-9._-]{0,64}$` (core). -/
def namespaceCore (l : List Char) : Bool :=
  l.all (fun c => c.isAlphanum || c == '.' || c == '_' || c == '-') &&
    l.length ≤ 64

def namespaceOk (s : String) : Bool := pyDollarMatch namespaceCore s.data

/-- The literal suffix `.cloud.qdrant.io` of the Qdrant Cloud URL pattern. -/
def qdrantSuffix : List Char := ".cloud.qdrant.io".data

/-- `_QDRANT_URL_PATTERN = ^https://[a-zA-Z0-9._-]+\.cloud\.qdrant\.io(:\d+)?$`
(core).  The host part contains no colon (the class `[a-zA-Z0-9._-]`
excludes it), so splitting at the first colon after `https://` separates
the host from the optional port exactly as the regex does. -/
def qdrantUrlCore (l : List Char) : Bool :=
  "https://".data.isPrefixOf l &&
    (let rest := l.drop 8
     let host := rest.takeWhile (fun c => !(c == ':'))
     let port := rest.dropWhile (fun c => !(c == ':'))
     (host.all (fun c => c.isAlphanum || c == '.' || c == '_' || c == '-')) &&
       qdrantSuffix.isSuffixOf host && 16 < host.length &&
       (match port with
        | [] => true
        | ':' :: ds => !ds.isEmpty && ds.all Char.isDigit
        | _ => false))

def qdrantUrlOk (s : String) : Bool := pyDollarMatch qdrantUrlCore s.data

/-- `_CONTROL_CHARS = [\x00-\x08\x0b\x0c\x0e-\x1f\x7f]` membership. -/
def isControlChar (c : Char) : Bool :=
  (c.toNat ≤ 0x08) || c == '\x0b' || c == '\x0c' ||
    (0x0e ≤ c.toNat && c.toNat ≤ 0x1f) || c == '\x7f'

/-- `sanitize_text` (validation.py lines 78-80): remove dangerous control
characters. -/
def sanitize_text (s : String) : String :=
  ⟨s.data.filter (fun c => !isControlChar c)⟩

/-- Does a string contain a control character (used to state claims about
control-character hygiene)? -/
def hasControlChar (s : String) : Bool := s.data.any isControlChar

/-! ## `str.replace` and `_sanitize_error`

Python's `str.replace(old, new)` replaces non-overlapping occurrences
left to right.  The recursion is fuelled by the length of the scanned
string so that the definition is structural (and kernel-evaluable); the
fuel is sufficient whenever the pattern is non-empty, which the callers
guarantee. -/

def pyReplaceAux (t r : List Char) : Nat → List Char → List Char
  | _, [] => []
  | 0, s => s
  | fuel + 1, c :: s' =>
    if t.isPrefixOf (c :: s') then
      r ++ pyReplaceAux t r fuel ((c :: s').drop t.length)
    else
      c :: pyReplaceAux t r fuel s'

/-- `s.replace(t, r)` for a non-empty pattern `t` (for `t = []` — never
reached from `_sanitize_error` — it returns `s` unchanged). -/
def pyReplace (t r s : List Char) : List Char :=
  if t.isEmpty then s else pyReplaceAux t r s.length s

/-- Python's substring test `t in s`. -/
def containsSub (t : List Char) : List Char → Bool
  | [] => t.isPrefixOf []
  | c :: s' => t.isPrefixOf (c :: s') || containsSub t s'

/-- The redaction marker inserted by `_sanitize_error`. -/
def REDACTED : List Char := "[REDACTED]".data

/-- First statement of `_sanitize_error`:
`if api_key and api_key in message: message = message.replace(api_key,
"[REDACTED]")`. -/
def sanitize_pass1 (message api_key : List Char) : List Char :=
  if !api_key.isEmpty && containsSub api_key message then
    pyReplace api_key REDACTED message
  else message

/-- Second statement of `_sanitize_error`:
`if api_key and len(api_key) > 8 and api_key[:8] in message: message =
message.replace(api_key[:8], "[REDACTED]")`. -/
def sanitize_pass2 (m1 api_key : List Char) : List Char :=
  if !api_key.isEmpty && 8 < api_key.length && containsSub (api_key.take 8) m1
  then pyReplace (api_key.take 8) REDACTED m1
  else m1

/-- `_sanitize_error` (validation.py lines 83-89, duplicated verbatim in
pinecone.py lines 35-41 and qdrant.py lines 32-38): strip the API key
from error messages. -/
def sanitize_error (message api_key : String) : String :=
  ⟨sanitize_pass2 (sanitize_pass1 message.data api_key.data) api_key.data⟩

/-- Substring test at `String` level. -/
def strContains (needle hay : String) : Bool := containsSub needle.data hay.data

/-! ## Validated input model (validation.py) -/

/-- Hard limits (validation.py lines 26-31). -/
def MAX_VECTORS_COUNT : Nat := 50000
def MAX_BATCH_SIZE_PINECONE : Int := 1000
def MAX_BATCH_SIZE_QDRANT : Int := 500

/-- `VALID_PROVIDERS` (a two-element set, modelled as a list). -/
def VALID_PROVIDERS : List String := ["pinecone", "qdrant"]

/-- `VALID_DISTANCE_METRICS`. -/
def VALID_DISTANCE_METRICS : List String := ["Cosine", "Dot", "Euclid"]

/-- The untyped actor input map restricted to the keys `validate_input`
reads; an absent key is `none`.  The Python `namespace` key is spelled
`nspace` because `namespace` is a Lean keyword. -/
structure ActorInput where
  provider : Option PyVal := none
  api_key : Option PyVal := none
  index_name : Option PyVal := none
  environment : Option PyVal := none
  nspace : Option PyVal := none
  distance_metric : Option PyVal := none
  dataset_id : Option PyVal := none
  vectors : Option PyVal := none
  batch_size : Option PyVal := none
  id_field : Option PyVal := none

/-- `ValidatedInput` dataclass (validation.py lines 62-75); the Python
`namespace` field is spelled `nspace`. -/
structure ValidatedInput where
  api_key : String
  provider : String
  index_name : String
  environment : Option String
  nspace : String
  distance_metric : String
  dataset_id : Option String
  vectors : Option (List PyVal)
  batch_size : Int
  id_field : String

/-- Thousands separator formatting used by the f-string `{n:,}`. -/
def commaGroupsAux : Nat → List Char → List (List Char)
  | 0, _ => []
  | _, [] => []
  | fuel + 1, l => l.take 3 :: commaGroupsAux fuel (l.drop 3)

def commaFormat (n : Nat) : String :=
  let ds := (toString n).data
  ⟨(List.intercalate [','] (commaGroupsAux ds.length ds.reverse)).reverse⟩

/-- Fuelled Python `str()`/`repr()` rendering of a `PyVal` (only reached
by the `batch_size must be an integer` error message; scalars are exact,
containers are rendered to a nesting depth of the fuel). -/
def pyReprAux : Nat → PyVal → String
  | _, .vNone => "None"
  | _, .vBool b => cond b "True" "False"
  | _, .vInt n => toString n
  | _, .vFloat q => toString q
  | 0, _ => ""
  | _, .vStr s => "'" ++ s ++ "'"
  | fuel + 1, .vList l =>
    "[" ++ String.intercalate ", " (l.map (pyReprAux fuel)) ++ "]"
  | fuel + 1, .vDict d =>
    "\x7b" ++
      String.intercalate ", "
        (d.map (fun kv => "'" ++ kv.1 ++ "': " ++ pyReprAux fuel kv.2)) ++
      "\x7d"

/-- Python `str(v)` as used in an f-string. -/
def pyStrOf : PyVal → String
  | .vStr s => s
  | v => pyReprAux 100 v

/-- Python `int(v)` for the non-`int` case of the `batch_size` coercion:
strings parse as integer literals, floats truncate toward zero, anything
else raises (`none`). -/
def pyToInt : PyVal → Option Int
  | .vFloat q => some (q.num / (q.den : Int))
  | .vStr s =>
    let t := pyStripL s.data
    match t with
    | '-' :: ds => if !ds.isEmpty && ds.all Char.isDigit then
        some (-(Int.ofNat (ds.foldl (fun a c => a * 10 + (c.toNat - 48)) 0)))
      else none
    | '+' :: ds => if !ds.isEmpty && ds.all Char.isDigit then
        some (Int.ofNat (ds.foldl (fun a c => a * 10 + (c.toNat - 48)) 0))
      else none
    | ds => if !ds.isEmpty && ds.all Char.isDigit then
        some (Int.ofNat (ds.foldl (fun a c => a * 10 + (c.toNat - 48)) 0))
      else none
  | _ => none

/-! ### The validation steps, in source order (validation.py lines 92-271).
Each `check*` definition embeds one commented block of `validate_input`;
`validate_input` chains them with the same fail-fast semantics (an error
return in Python is an `Except.error` here). -/

/-- Provider block (lines 99-108). -/
def checkProvider (i : ActorInput) : Except String String :=
  let p0 := i.provider.getD (.vStr "pinecone")
  let p1 := match p0 with | .vStr s => s | _ => "pinecone"
  let provider := pyLower (pyStrip p1)
  if provider ∈ VALID_PROVIDERS then .ok provider
  else .error ("Invalid provider '" ++ provider ++
    "'. Must be one of: pinecone, qdrant.")

/-- API key block (lines 110-118). -/
def checkApiKey (i : ActorInput) : Except String String :=
  let k0 := i.api_key.getD (.vStr "")
  let k1 := match k0 with | .vStr s => s | _ => ""
  let api_key := pyStrip k1
  if api_key.isEmpty then
    .error "API key is required. Provide your Pinecone or Qdrant API key."
  else .ok api_key

/-- Index / collection name block (lines 120-135). -/
def checkIndexName (i : ActorInput) : Except String String :=
  let n0 := i.index_name.getD (.vStr "")
  let n1 := match n0 with | .vStr s => s | _ => ""
  let index_name := pyStrip n1
  if index_name.isEmpty then
    .error ("Index/collection name is required. " ++
      "Pinecone: your index name. Qdrant: your collection name.")
  else if !indexNameOk index_name then
    .error ("Invalid index/collection name: '" ++ index_name ++
      "'. Must be alphanumeric (with hyphens/underscores), 1-64 characters, " ++
      "starting with a letter or digit.")
  else .ok index_name

/-- Qdrant cluster URL block (lines 137-153).  `if not environment or not
isinstance(environment, str)` rejects an absent key, a non-string value
and the empty string alike. -/
def checkEnvironment (provider : String) (i : ActorInput) :
    Except String (Option String) :=
  if provider == "qdrant" then
    match i.environment with
    | some (.vStr e) =>
      if e.isEmpty then
        .error ("Qdrant cluster URL is required. " ++
          "Provide your Qdrant Cloud URL " ++
          "(e.g., 'https://xyz.us-east-1.aws.cloud.qdrant.io:6333').")
      else
        let env := pyRstripSlash (pyStrip e)
        if qdrantUrlOk env then .ok (some env)
        else
          .error ("Invalid Qdrant cluster URL: '" ++ env ++
            "'. Must match pattern: https://{cluster}.cloud.qdrant.io:6333")
    | _ =>
      .error ("Qdrant cluster URL is required. " ++
        "Provide your Qdrant Cloud URL " ++
        "(e.g., 'https://xyz.us-east-1.aws.cloud.qdrant.io:6333')."
      )
  else .ok none

/-- Namespace block (lines 155-164); runs for both providers. -/
def checkNamespace (i : ActorInput) : Except String String :=
  let n0 := i.nspace.getD (.vStr "")
  let n1 := match n0 with | .vStr s => s | _ => ""
  let ns := pyStrip n1
  if !ns.isEmpty && !namespaceOk ns then
    .error ("Invalid namespace: '" ++ ns ++
      "'. Must be alphanumeric with hyphens/underscores/dots, max 64 characters.")
  else .ok ns

/-- Distance metric block (lines 166-174); runs for both providers. -/
def checkDistanceMetric (i : ActorInput) : Except String String :=
  let d0 := i.distance_metric.getD (.vStr "Cosine")
  let dm := match d0 with | .vStr s => s | _ => "Cosine"
  if dm ∈ VALID_DISTANCE_METRICS then .ok dm
  else .error ("Invalid distance metric '" ++ dm ++
    "'. Must be one of: Cosine, Dot, Euclid.")

/-- `has_dataset` (lines 180-184): a string `dataset_id` that is non-empty
after stripping. -/
def has_dataset (i : ActorInput) : Bool :=
  match i.dataset_id with
  | some (.vStr s) => !(pyStrip s).isEmpty
  | _ => false

/-- `has_vectors` (lines 185-189): a non-empty list `vectors`. -/
def has_vectors (i : ActorInput) : Bool :=
  match i.vectors with
  | some (.vList l) => !l.isEmpty
  | _ => false

/-- Per-element raw vector checks (lines 215-227). -/
def checkVectorItems : Nat → List PyVal → Option String
  | _, [] => none
  | idx, v :: rest =>
    match v with
    | .vDict d =>
      match d.lookup "embedding" with
      | none =>
        some ("vectors[" ++ toString idx ++ "] is missing 'embedding' field. " ++
          "Each vector must have an 'embedding' array of floats.")
      | some emb =>
        match emb with
        | .vList l =>
          if l.isEmpty then
            some ("vectors[" ++ toString idx ++
              "]['embedding'] must be a non-empty array of numbers.")
          else checkVectorItems (idx + 1) rest
        | _ =>
          some ("vectors[" ++ toString idx ++
            "]['embedding'] must be a non-empty array of numbers.")
    | _ => some ("vectors[" ++ toString idx ++ "] is not an object.")

/-- Input sources block (lines 176-229): the neither-source error, the
`dataset_id` format check, and the raw-vectors checks.  When both sources
are present the dataset wins and `vectors` is set to `None`. -/
def checkSources (i : ActorInput) :
    Except String (Option String × Option (List PyVal)) :=
  if !has_dataset i && !has_vectors i then
    .error ("No input provided. Supply either 'dataset_id' (from RAG Embedding " ++
      "Generator output) or 'vectors' (raw vector array).")
  else if has_dataset i then
    let raw := match i.dataset_id with | some (.vStr s) => s | _ => ""
    let ds := pyStrip raw
    if !datasetIdOk ds then
      .error ("Invalid dataset_id format: '" ++ ds ++
        "'. Must be alphanumeric (with hyphens/underscores), 1-64 characters.")
    else .ok (some ds, none)
  else
    let l := match i.vectors with | some (.vList l) => l | _ => []
    if MAX_VECTORS_COUNT < l.length then
      .error ("Too many vectors: " ++ commaFormat l.length ++
        " provided, maximum is 50,000.")
    else
      match checkVectorItems 0 l with
      | some msg => .error msg
      | none => .ok (none, some l)

/-- Batch size block (lines 231-244). -/
def checkBatchSize (provider : String) (i : ActorInput) : Except String Int :=
  let b0 := i.batch_size.getD (.vInt 100)
  let parsed : Except String Int :=
    match b0 with
    | .vInt n => .ok n
    | .vBool b => .ok (cond b 1 0)
    | v =>
      match pyToInt v with
      | some n => .ok n
      | none => .error ("batch_size must be an integer, got '" ++ pyStrOf v ++ "'.")
  match parsed with
  | .error e => .error e
  | .ok n =>
    let max_batch := if provider == "pinecone" then MAX_BATCH_SIZE_PINECONE
      else MAX_BATCH_SIZE_QDRANT
    if n < 1 || max_batch < n then
      .error ("batch_size must be between 1 and " ++ toString max_batch ++
        " for " ++ provider ++ ", got " ++ toString n ++ ".")
    else .ok n

/-- `id_field` block (lines 246-258). -/
def checkIdField (i : ActorInput) : Except String String :=
  let f0 := i.id_field.getD (.vStr "chunk_id")
  let f1 := match f0 with | .vStr s => s | _ => "chunk_id"
  let f2 := pyStrip f1
  let id_field := if f2.isEmpty then "chunk_id" else f2
  if !fieldNameOk id_field then
    .error ("Invalid id_field: '" ++ id_field ++
      "'. Must start with a letter or underscore, contain only " ++
      "alphanumeric characters, underscores, or dots.")
  else .ok id_field

/-- `validate_input` (validation.py lines 92-271): the checks in source
order, fail-fast, assembling the `ValidatedInput` on success. -/
def validate_input (actor_input : ActorInput) :
    Except String ValidatedInput :=
  match checkProvider actor_input with
  | .error e => .error e
  | .ok provider =>
  match checkApiKey actor_input with
  | .error e => .error e
  | .ok api_key =>
  match checkIndexName actor_input with
  | .error e => .error e
  | .ok index_name =>
  match checkEnvironment provider actor_input with
  | .error e => .error e
  | .ok environment =>
  match checkNamespace actor_input with
  | .error e => .error e
  | .ok ns =>
  match checkDistanceMetric actor_input with
  | .error e => .error e
  | .ok distance_metric =>
  match checkSources actor_input with
  | .error e => .error e
  | .ok sources =>
  match checkBatchSize provider actor_input with
  | .error e => .error e
  | .ok batch_size =>
  match checkIdField actor_input with
  | .error e => .error e
  | .ok id_field =>
    .ok {
      api_key := api_key
      provider := provider
      index_name := index_name
      environment := environment
      nspace := ns
      distance_metric := distance_metric
      dataset_id := sources.1
      vectors := sources.2
      batch_size := batch_size
      id_field := id_field
    }

/-! ## The resilient HTTP client (`_request_with_retry`)

`pinecone.py` lines 44-108 and `qdrant.py` lines 41-106 contain the same
retry loop, differing only in the provider name used in messages and in
the Qdrant variant taking an `accept_statuses` parameter where the
Pinecone variant hardcodes `resp.status == 200`.  The network is modelled
by an oracle giving the outcome of each attempt; the embedding also
records the trace the claims talk about: how many attempts were made and
which back-off sleeps were performed. -/

/-- Outcome of one HTTP attempt: a response with a status code and body
text, or a transport-level error (`aiohttp.ClientError`, including
timeouts). -/
inductive HttpOutcome where
  | resp : Nat → String → HttpOutcome
  | netError : String → HttpOutcome
deriving DecidableEq

/-- Terminal result of `_request_with_retry`: the parsed body on success,
or the `ValueError` message raised. -/
inductive ReqResult where
  | success : String → ReqResult
  | authError : String → ReqResult
  | apiError : String → ReqResult
  | unexpectedError : String → ReqResult
  | exhausted : String → ReqResult
deriving DecidableEq

/-- Trace of one `_request_with_retry` call: number of attempts actually
made, the back-off sleeps performed (in order), and the terminal result. -/
structure RetryRun where
  attempts : Nat
  sleeps : List Rat
  result : ReqResult
deriving DecidableEq

/-- `_MAX_RETRIES = 3`, `_BASE_DELAY = 1.0` (both files). -/
def MAX_RETRIES : Nat := 3
def BASE_DELAY : Rat := 1

/-- The `last_error` string recorded for a retryable outcome. -/
def lastErrorOf (name : String) (api_key : String) : HttpOutcome → String
  | .resp status body =>
    name ++ " returned " ++ toString status ++ ": " ++ sanitize_error body api_key
  | .netError msg => "Network error: " ++ msg

/-- The body of the `for attempt in range(_MAX_RETRIES)` loop, recursing
on the remaining fuel (`fuel = MAX_RETRIES - attempt`). -/
def retryAux (name : String) (accept : List Nat) (oracle : Nat → HttpOutcome)
    (api_key : String) : Nat → Nat → Option String → List Rat → RetryRun
  | attempt, 0, lastError, sleeps =>
    ⟨attempt, sleeps.reverse,
      .exhausted (name ++ ": failed after " ++ toString MAX_RETRIES ++
        " attempts. Last error: " ++ (lastError.getD "None"))⟩
  | attempt, fuel + 1, _lastError, sleeps =>
    match oracle attempt with
    | .resp status body =>
      if status ∈ accept then ⟨attempt + 1, sleeps.reverse, .success body⟩
      else
        let safe_body := sanitize_error body api_key
        if status ∈ [400, 401, 403] then
          if status == 401 then
            ⟨attempt + 1, sleeps.reverse,
              .authError (name ++ " API key is invalid or expired. " ++
                "Check your key and try again.")⟩
          else
            ⟨attempt + 1, sleeps.reverse,
              .apiError (name ++ " API error (" ++ toString status ++ "): " ++
                safe_body)⟩
        else if status ∈ [429, 500, 502, 503, 504] then
          retryAux name accept oracle api_key (attempt + 1) fuel
            (some (lastErrorOf name api_key (.resp status body)))
            ((BASE_DELAY * 2 ^ attempt) :: sleeps)
        else
          ⟨attempt + 1, sleeps.reverse,
            .unexpectedError ("Unexpected " ++ name ++ " response (" ++
              toString status ++ "): " ++ safe_body)⟩
    | .netError msg =>
      retryAux name accept oracle api_key (attempt + 1) fuel
        (some (lastErrorOf name api_key (.netError msg)))
        ((BASE_DELAY * 2 ^ attempt) :: sleeps)

/-- `_request_with_retry` of pinecone.py (success = status 200). -/
def pineconeRequestWithRetry (oracle : Nat → HttpOutcome) (api_key : String) :
    RetryRun :=
  retryAux "Pinecone" [200] oracle api_key 0 MAX_RETRIES none []

/-- `_request_with_retry` of qdrant.py (success = `accept_statuses`,
default `(200,)`). -/
def qdrantRequestWithRetry (oracle : Nat → HttpOutcome) (api_key : String)
    (accept : List Nat := [200]) : RetryRun :=
  retryAux "Qdrant" accept oracle api_key 0 MAX_RETRIES none []

/-- An outcome the loop retries on: status 429/500/502/503/504 or a
network error. -/
def RetryableOutcome : HttpOutcome → Prop
  | .resp status _ => status ∈ [429, 500, 502, 503, 504]
  | .netError _ => True

instance : DecidablePred RetryableOutcome := fun o =>
  match o with
  | .resp _ _ => by unfold RetryableOutcome; infer_instance
  | .netError _ => by unfold RetryableOutcome; infer_instance

/-! ## Batch slicing and the writer upsert loops

Both writers run `for batch_start in range(0, len(vectors), batch_size):
batch = vectors[batch_start : min(batch_start + batch_size, len)]`.
Slicing off `batch_size`-sized chunks from the front is the same loop;
the recursion is fuelled by the list length, which suffices whenever
`batch_size ≥ 1` (validation guarantees `1 ≤ batch_size`, and Python's
`range` raises on a zero step). -/

def chunksAux (B : Nat) : Nat → List α → List (List α)
  | 0, _ => []
  | _, [] => []
  | fuel + 1, l => l.take B :: chunksAux B fuel (l.drop B)

/-- The list of batches the writer's upsert loop sends, in order. -/
def chunks (B : Nat) (l : List α) : List (List α) := chunksAux B l.length l

/-- Pinecone upsert loop (pinecone.py lines 221-243): every batch is sent;
`total_upserted` accumulates the provider-reported `upsertedCount`
(modelled by `counts`, with `data.get("upsertedCount", 0)` applied by the
oracle) and `total_batches` counts every batch. -/
def pineconeTotalUpserted (counts : Nat → Nat) : Nat → List (List α) → Nat
  | _, [] => 0
  | idx, _ :: bs => counts idx + pineconeTotalUpserted counts (idx + 1) bs

/-- The Pinecone batching phase: the batches sent, `total_upserted`, and
`total_batches`. -/
def pineconeUpsertPhase (vectors : List α) (batch_size : Nat)
    (counts : Nat → Nat) : List (List α) × Nat × Nat :=
  let batches := chunks batch_size vectors
  (batches, pineconeTotalUpserted counts 0 batches, batches.length)

/-- Qdrant upsert loop accumulation (qdrant.py lines 255-278): a batch
adds `len(batch)` to `total_upserted` and `1` to `total_batches` exactly
when the response's `status` field (modelled by `statuses`) equals
`"ok"`; otherwise it is only logged and the loop continues. -/
def qdrantTotals (statuses : Nat → String) : Nat → List (List α) → Nat × Nat
  | _, [] => (0, 0)
  | idx, b :: bs =>
    let rest := qdrantTotals statuses (idx + 1) bs
    if statuses idx == "ok" then (b.length + rest.1, 1 + rest.2) else rest

/-- The Qdrant batching phase: the batches sent, `total_upserted`, and
`total_batches`. -/
def qdrantUpsertPhase (points : List α) (batch_size : Nat)
    (statuses : Nat → String) : List (List α) × Nat × Nat :=
  let batches := chunks batch_size points
  (batches, (qdrantTotals statuses 0 batches).1, (qdrantTotals statuses 0 batches).2)

/-! ## Payload builders (`_build_pinecone_vector`, `_build_qdrant_point`) -/

/-- The reserved keys skipped by both builders. -/
def SKIP_FIELDS : List String := ["embedding", "_summary", "index", "dimensions"]

/-- A Pinecone vector object (pinecone.py lines 174-178). -/
structure PineconeVector where
  id : String
  values : PyVal
  metadata : List (String × PyVal)

/-- A Qdrant point object (qdrant.py lines 190-194). -/
structure QdrantPoint where
  id : String
  vector : PyVal
  payload : List (String × PyVal)

/-- The Pinecone metadata value filter (pinecone.py lines 168-172):
scalar (`str`/`int`/`float`/`bool`) values, or lists whose elements are
all strings. -/
def pineconeKeepValue : PyVal → Bool
  | .vStr _ => true
  | .vInt _ => true
  | .vFloat _ => true
  | .vBool _ => true
  | .vList l => l.all (fun v => match v with | .vStr _ => true | _ => false)
  | _ => false

/-- The Qdrant payload value filter (qdrant.py line 187):
`isinstance(value, (str, int, float, bool, list, dict))` — everything in
the model except `None`. -/
def qdrantKeepValue : PyVal → Bool
  | .vNone => false
  | _ => true

/-- Whether `json.dumps` accepts the value.  Every constructor of the
`PyVal` model is a JSON type (`None` serializes to `null`), so this is
constantly true; it is the spec-side notion "JSON-serializable" that the
claims compare the code's filter against. -/
def jsonSerializable : PyVal → Bool := fun _ => true

/-- `_build_pinecone_vector` (pinecone.py lines 141-178).  `freshId`
stands for the `str(uuid.uuid4())` fallback (the generator is the only
non-determinism in the function and is passed in explicitly).  The
`index` parameter is accepted and unused, exactly as in the source. -/
def build_pinecone_vector (item : List (String × PyVal)) (_index : Nat)
    (id_field : String) (freshId : String) : PineconeVector :=
  let vec_id :=
    match item.lookup id_field with
    | some (.vStr s) => if s.isEmpty then freshId else s
    | _ => freshId
  let embedding := (item.lookup "embedding").getD (.vList [])
  let metadata := item.filter (fun kv =>
    !SKIP_FIELDS.contains kv.1 && kv.1 != id_field && pineconeKeepValue kv.2)
  ⟨vec_id, embedding, metadata⟩

/-- `_build_qdrant_point` (qdrant.py lines 159-194). -/
def build_qdrant_point (item : List (String × PyVal)) (_index : Nat)
    (id_field : String) (freshId : String) : QdrantPoint :=
  let point_id :=
    match item.lookup id_field with
    | some (.vStr s) => if s.isEmpty then freshId else s
    | _ => freshId
  let embedding := (item.lookup "embedding").getD (.vList [])
  let payload := item.filter (fun kv =>
    !SKIP_FIELDS.contains kv.1 && kv.1 != id_field && qdrantKeepValue kv.2)
  ⟨point_id, embedding, payload⟩

/-! ## Concrete inputs used to settle the claims -/

/-- A well-formed single-vector `vectors` payload. -/
def oneVector : PyVal := .vList [.vDict [("embedding", .vList [.vInt 1])]]

/-- A Qdrant input that is valid in every field except possibly the
cluster URL, which is the probe. -/
def qdrantEnvProbe (env : String) : ActorInput :=
  { provider := some (.vStr "qdrant"), api_key := some (.vStr "testkey"),
    index_name := some (.vStr "col"), environment := some (.vStr env),
    vectors := some oneVector }

/-- The validated record produced for the accepted probe URL. -/
def c1Output : ValidatedInput :=
  ⟨"testkey", "qdrant", "col", some "https://abc.us-east.cloud.qdrant.io:6333",
   "", "Cosine", none, some [.vDict [("embedding", .vList [.vInt 1])]], 100,
   "chunk_id"⟩

/-- An input supplying both a dataset id and an inline vector list. -/
def c3BothInput : ActorInput :=
  { provider := some (.vStr "pinecone"), api_key := some (.vStr "pk"),
    index_name := some (.vStr "idx"), dataset_id := some (.vStr "ds1"),
    vectors := some oneVector }

/-- A plain valid Pinecone input with inline vectors only. -/
def c4Input : ActorInput :=
  { provider := some (.vStr "pinecone"), api_key := some (.vStr "pk"),
    index_name := some (.vStr "idx"), vectors := some oneVector }

/-- The validated record produced for `c4Input`. -/
def c4Output : ValidatedInput :=
  ⟨"pk", "pinecone", "idx", none, "", "Cosine", none,
   some [.vDict [("embedding", .vList [.vInt 1])]], 100, "chunk_id"⟩

/-- A valid input whose API key contains the control character `\x01`. -/
def c9Input : ActorInput :=
  { provider := some (.vStr "pinecone"), api_key := some (.vStr "a\x01b"),
    index_name := some (.vStr "idx"), vectors := some oneVector }

/-- A Pinecone input carrying an invalid (Qdrant-only) distance metric. -/
def c10PineInput : ActorInput :=
  { provider := some (.vStr "pinecone"), api_key := some (.vStr "pk"),
    index_name := some (.vStr "idx"),
    distance_metric := some (.vStr "cosine"), vectors := some oneVector }

/-- A Qdrant input carrying an invalid (Pinecone-only) namespace. -/
def c10QdrInput : ActorInput :=
  { provider := some (.vStr "qdrant"), api_key := some (.vStr "pk"),
    index_name := some (.vStr "idx"),
    environment := some (.vStr "https://a.cloud.qdrant.io"),
    nspace := some (.vStr "bad ns!"), vectors := some oneVector }

/-- Spec-side condition for a Pinecone metadata value, following the
words of the specification: the value survives iff it is a string, an
int, a float, a bool, or a list whose elements are all strings. -/
def pineconeKeepSpec : PyVal → Prop
  | .vStr _ => True
  | .vInt _ => True
  | .vFloat _ => True
  | .vBool _ => True
  | .vList l => ∀ v ∈ l, ∃ s, v = .vStr s
  | _ => False

/-! ## Lemmas about batch slicing -/

theorem chunksAux_sum_lengths {α : Type _} (B : Nat) (hB : 1 ≤ B) :
    ∀ (fuel : Nat) (l : List α), l.length ≤ fuel →
      ((chunksAux B fuel l).map List.length).sum = l.length := by
  intro fuel
  induction fuel with
  | zero =>
    intro l hl
    have : l = [] := List.eq_nil_of_length_eq_zero (Nat.le_zero.mp hl)
    subst this; simp [chunksAux]
  | succ f ih =>
    intro l hl
    cases l with
    | nil => simp [chunksAux]
    | cons x xs =>
      have hdrop : ((x :: xs).drop B).length ≤ f := by
        simp only [List.length_drop, List.length_cons] at hl ⊢
        omega
      have hrec := ih ((x :: xs).drop B) hdrop
      simp only [chunksAux, List.map_cons, List.sum_cons, hrec,
        List.length_take, List.length_drop]
      simp only [List.length_cons]
      omega

theorem chunksAux_count {α : Type _} (B : Nat) (hB : 1 ≤ B) :
    ∀ (fuel : Nat) (l : List α), l.length ≤ fuel →
      (chunksAux B fuel l).length = (l.length + B - 1) / B := by
  intro fuel
  induction fuel with
  | zero =>
    intro l hl
    have : l = [] := List.eq_nil_of_length_eq_zero (Nat.le_zero.mp hl)
    subst this
    simp [chunksAux, Nat.div_eq_of_lt (by omega : B - 1 < B)]
  | succ f ih =>
    intro l hl
    cases l with
    | nil => simp [chunksAux, Nat.div_eq_of_lt (by omega : B - 1 < B)]
    | cons x xs =>
      have hdrop : ((x :: xs).drop B).length ≤ f := by
        simp only [List.length_drop, List.length_cons] at hl ⊢
        omega
      have hrec := ih ((x :: xs).drop B) hdrop
      simp only [chunksAux, List.length_cons, hrec, List.length_drop,
        List.length_cons]
      by_cases hcase : B ≤ xs.length + 1
      · have h1 : xs.length + 1 - B + B - 1 = xs.length + 1 - 1 := by omega
        have h2 : xs.length + 1 + B - 1 = (xs.length + 1 - 1) + B := by omega
        rw [h1, h2, Nat.add_div_right _ (by omega : 0 < B)]
      · have h1 : xs.length + 1 - B = 0 := by omega
        have h2 : (0 + B - 1) / B = 0 := Nat.div_eq_of_lt (by omega)
        have h3 : (xs.length + 1 + B - 1) / B = 1 :=
          Nat.div_eq_of_lt_le (by omega) (by omega)
        rw [h1, h2, h3]

theorem chunksAux_ne_nil {α : Type _} (B fuel : Nat) (l : List α)
    (hfuel : 1 ≤ fuel) (hl : l ≠ []) : chunksAux B fuel l ≠ [] := by
  cases fuel with
  | zero => omega
  | succ f => cases l with
    | nil => exact absurd rfl hl
    | cons x xs => simp [chunksAux]

theorem chunksAux_last {α : Type _} (B : Nat) (hB : 1 ≤ B) :
    ∀ (fuel : Nat) (l : List α), l.length ≤ fuel → l ≠ [] →
      l.length % B ≠ 0 →
      ((chunksAux B fuel l).map List.length).getLast? = some (l.length % B) := by
  intro fuel
  induction fuel with
  | zero =>
    intro l hl hne _
    exact absurd (List.eq_nil_of_length_eq_zero (Nat.le_zero.mp hl)) hne
  | succ f ih =>
    intro l hl hne hmod
    cases l with
    | nil => exact absurd rfl hne
    | cons x xs =>
      simp only [List.length_cons] at hl hmod
      by_cases hcase : xs.length + 1 ≤ B
      · have hlt : xs.length + 1 < B := by
          rcases Nat.lt_or_ge (xs.length + 1) B with h | h
          · exact h
          · exfalso
            have : xs.length + 1 = B := by omega
            rw [this, Nat.mod_self] at hmod
            exact hmod rfl
        have hdropnil : (x :: xs).drop B = [] := by
          apply List.eq_nil_of_length_eq_zero
          simp only [List.length_drop, List.length_cons]
          omega
        have hrecnil : ∀ g : Nat, chunksAux B g ([] : List α) = [] := by
          intro g; cases g <;> simp [chunksAux]
        simp only [chunksAux, hdropnil, hrecnil, List.map_cons, List.map_nil,
          List.getLast?_singleton, List.length_take, List.length_cons]
        rw [Nat.mod_eq_of_lt hlt]
        congr 1
        omega
      · have hBlt : B < xs.length + 1 := by omega
        have hdrop_len : ((x :: xs).drop B).length = xs.length + 1 - B := by
          simp [List.length_drop]
        have hdrop_ne : (x :: xs).drop B ≠ [] := by
          intro hcon
          have := congrArg List.length hcon
          simp only [hdrop_len, List.length_nil] at this
          omega
        have hdrop_le : ((x :: xs).drop B).length ≤ f := by
          rw [hdrop_len]; omega
        have hmod' : ((x :: xs).drop B).length % B = (xs.length + 1) % B := by
          rw [hdrop_len]
          have : xs.length + 1 = (xs.length + 1 - B) + B := by omega
          conv_rhs => rw [this]
          rw [Nat.add_mod_right]
        have hrec := ih ((x :: xs).drop B) hdrop_le hdrop_ne
          (by rw [hmod']; exact hmod)
        have hne' : chunksAux B f ((x :: xs).drop B) ≠ [] :=
          chunksAux_ne_nil B f _ (by omega) hdrop_ne
        obtain ⟨y, ys, hys⟩ := List.exists_cons_of_ne_nil hne'
        simp only [chunksAux, hys, List.map_cons, List.getLast?_cons_cons]
        rw [← List.map_cons, ← hys, hrec, hmod']
        simp [List.length_cons]


/-- The totals accumulated by the Qdrant upsert loop, characterised over
the indexed batch list: `total_upserted` sums the sizes of exactly the
batches whose response status is `"ok"`, `total_batches` counts them. -/
theorem qdrantTotals_spec {α : Type _} (statuses : Nat → String) :
    ∀ (bs : List (List α)) (i : Nat),
      (qdrantTotals statuses i bs).1 =
        (((List.enumFrom i bs).filter (fun p => statuses p.1 == "ok")).map
          (fun p => p.2.length)).sum ∧
      (qdrantTotals statuses i bs).2 =
        ((List.enumFrom i bs).filter (fun p => statuses p.1 == "ok")).length := by
  intro bs
  induction bs with
  | nil => intro i; simp [qdrantTotals]
  | cons b rest ih =>
    intro i
    have hrec := ih (i + 1)
    by_cases h : statuses i == "ok"
    · simp only [qdrantTotals, h, if_pos, List.enumFrom_cons, List.filter_cons,
        List.map_cons, List.sum_cons, List.length_cons]
      constructor
      · rw [hrec.1]
      · rw [hrec.2]; omega
    · simp only [qdrantTotals, List.enumFrom_cons, List.filter_cons]
      rw [if_neg (by simpa using h)]
      simp only [Bool.not_eq_true] at h
      simp only [h]
      exact hrec

/-- C6: for every non-empty list of N items and every batch size B ≥ 1,
the batching phase of either writer issues exactly ⌈N/B⌉ upsert calls,
the sizes of the slices sent sum to N, and the last slice holds N mod B
records when B does not divide N. -/
theorem c6_batch_count_invariant {α : Type _} (items : List α) (B : Nat)
    (counts : Nat → Nat) (statuses : Nat → String)
    (hne : items ≠ []) (hB : 1 ≤ B) :
    ((pineconeUpsertPhase items B counts).1.length = (items.length + B - 1) / B ∧
     ((pineconeUpsertPhase items B counts).1.map List.length).sum = items.length ∧
     (items.length % B ≠ 0 →
       ((pineconeUpsertPhase items B counts).1.map List.length).getLast? =
         some (items.length % B))) ∧
    ((qdrantUpsertPhase items B statuses).1.length = (items.length + B - 1) / B ∧
     ((qdrantUpsertPhase items B statuses).1.map List.length).sum = items.length ∧
     (items.length % B ≠ 0 →
       ((qdrantUpsertPhase items B statuses).1.map List.length).getLast? =
         some (items.length % B))) := by
  refine ⟨⟨?_, ?_, ?_⟩, ⟨?_, ?_, ?_⟩⟩
  · exact chunksAux_count B hB items.length items le_rfl
  · exact chunksAux_sum_lengths B hB items.length items le_rfl
  · exact fun h => chunksAux_last B hB items.length items le_rfl hne h
  · exact chunksAux_count B hB items.length items le_rfl
  · exact chunksAux_sum_lengths B hB items.length items le_rfl
  · exact fun h => chunksAux_last B hB items.length items le_rfl hne h

set_option maxRecDepth 20000 in
theorem c6_batch_count_invariant_witness :
    (List.replicate 250 (0 : Nat) ≠ [] ∧ (1 : Nat) ≤ 100) ∧
    ((pineconeUpsertPhase (List.replicate 250 (0 : Nat)) 100 (fun _ => 100)).1.length =
      ((List.replicate 250 (0 : Nat)).length + 100 - 1) / 100 ∧
     (pineconeUpsertPhase (List.replicate 250 (0 : Nat)) 100 (fun _ => 100)).1.map
        List.length = [100, 100, 50] ∧
     (pineconeUpsertPhase (List.replicate 250 (0 : Nat)) 100 (fun _ => 100)).2.2 = 3) :=
  ⟨⟨by decide, by decide⟩,
   (c6_batch_count_invariant (List.replicate 250 (0 : Nat)) 100 (fun _ => 100)
      (fun _ => "ok") (by decide) (by decide)).1.1,
   by decide, by decide⟩

/-- C7: in the Qdrant writer's upsert loop, a batch contributes to
`total_upserted` and `total_batches` exactly when its response status
field equals `"ok"`; non-`"ok"` batches are excluded from both totals and
the loop still sends every one of the ⌈N/B⌉ batches. -/
theorem c7_qdrant_ok_filter {α : Type _} (pts : List α) (B : Nat)
    (statuses : Nat → String) (hne : pts ≠ []) (hB : 1 ≤ B) :
    (qdrantUpsertPhase pts B statuses).2.1 =
      (((qdrantUpsertPhase pts B statuses).1.enum.filter
        (fun p => statuses p.1 == "ok")).map (fun p => p.2.length)).sum ∧
    (qdrantUpsertPhase pts B statuses).2.2 =
      ((qdrantUpsertPhase pts B statuses).1.enum.filter
        (fun p => statuses p.1 == "ok")).length ∧
    (qdrantUpsertPhase pts B statuses).1.length = (pts.length + B - 1) / B := by
  refine ⟨?_, ?_, ?_⟩
  · exact (qdrantTotals_spec statuses (chunks B pts) 0).1
  · exact (qdrantTotals_spec statuses (chunks B pts) 0).2
  · exact chunksAux_count B hB pts.length pts le_rfl

theorem c7_qdrant_ok_filter_witness :
    (List.replicate 5 (0 : Nat) ≠ [] ∧ (1 : Nat) ≤ 2) ∧
    ((qdrantUpsertPhase (List.replicate 5 (0 : Nat)) 2
        (fun i => if i == 1 then "error" else "ok")).2.1 =
      (((qdrantUpsertPhase (List.replicate 5 (0 : Nat)) 2
          (fun i => if i == 1 then "error" else "ok")).1.enum.filter
        (fun p => (if p.1 == 1 then "error" else "ok") == "ok")).map
          (fun p => p.2.length)).sum ∧
     (qdrantUpsertPhase (List.replicate 5 (0 : Nat)) 2
        (fun i => if i == 1 then "error" else "ok")).2.1 = 3 ∧
     (qdrantUpsertPhase (List.replicate 5 (0 : Nat)) 2
        (fun i => if i == 1 then "error" else "ok")).2.2 = 2) :=
  ⟨⟨by decide, by decide⟩,
   (c7_qdrant_ok_filter (List.replicate 5 (0 : Nat)) 2
      (fun i => if i == 1 then "error" else "ok") (by decide) (by decide)).1,
   by decide, by decide⟩

/-! ## Lemmas about the retry loop -/

theorem retryAux_attempts_le (name : String) (accept : List Nat)
    (oracle : Nat → HttpOutcome) (key : String) :
    ∀ (fuel attempt : Nat) (le : Option String) (sl : List Rat),
      (retryAux name accept oracle key attempt fuel le sl).attempts ≤
        attempt + fuel := by
  intro fuel
  induction fuel with
  | zero => intro attempt le sl; simp [retryAux]
  | succ f ih =>
    intro attempt le sl
    cases h : oracle attempt with
    | resp s b =>
      simp only [retryAux, h]
      split
      · simp
      · split
        · split
          · simp
          · simp
        · split
          · exact le_trans (ih (attempt + 1) _ _) (by omega)
          · simp
    | netError m =>
      simp only [retryAux, h]
      exact le_trans (ih (attempt + 1) _ _) (by omega)

theorem retryAux_step (name : String) (oracle : Nat → HttpOutcome)
    (key : String) (attempt fuel : Nat) (le : Option String) (sl : List Rat)
    (h : RetryableOutcome (oracle attempt)) :
    retryAux name [200] oracle key attempt (fuel + 1) le sl =
      retryAux name [200] oracle key (attempt + 1) fuel
        (some (lastErrorOf name key (oracle attempt)))
        ((BASE_DELAY * 2 ^ attempt) :: sl) := by
  cases ho : oracle attempt with
  | netError m => simp [retryAux, ho, lastErrorOf]
  | resp s b =>
    rw [ho] at h
    simp only [RetryableOutcome, List.mem_cons, List.not_mem_nil, or_false] at h
    rcases h with rfl | rfl | rfl | rfl | rfl <;>
      simp [retryAux, ho, lastErrorOf]

theorem retryAux_exhaust (name : String) (oracle : Nat → HttpOutcome)
    (key : String) (h0 : RetryableOutcome (oracle 0))
    (h1 : RetryableOutcome (oracle 1)) (h2 : RetryableOutcome (oracle 2)) :
    retryAux name [200] oracle key 0 MAX_RETRIES none [] =
      ⟨3, [BASE_DELAY * 2 ^ 0, BASE_DELAY * 2 ^ 1, BASE_DELAY * 2 ^ 2],
        .exhausted (name ++ ": failed after " ++ toString MAX_RETRIES ++
          " attempts. Last error: " ++ lastErrorOf name key (oracle 2))⟩ := by
  have s1 := retryAux_step name oracle key 0 2 none [] h0
  have s2 := retryAux_step name oracle key 1 1
    (some (lastErrorOf name key (oracle 0))) [BASE_DELAY * 2 ^ 0] h1
  have s3 := retryAux_step name oracle key 2 0
    (some (lastErrorOf name key (oracle 1)))
    [BASE_DELAY * 2 ^ 1, BASE_DELAY * 2 ^ 0] h2
  exact s1.trans (s2.trans (s3.trans rfl))

theorem retryAux_auth (name : String) (oracle : Nat → HttpOutcome)
    (key : String) (body : String) (h : oracle 0 = .resp 401 body) :
    retryAux name [200] oracle key 0 MAX_RETRIES none [] =
      ⟨1, [], .authError (name ++ " API key is invalid or expired. " ++
        "Check your key and try again.")⟩ := by
  rw [show (MAX_RETRIES : Nat) = 2 + 1 from rfl]
  simp [retryAux, h]

/-- C5: the retry loop makes at most 3 attempts; when every attempt yields
a retryable outcome (status 429/500/502/503/504 or a network error) it
makes exactly 3 attempts, sleeping `base_delay * 2^k` around attempt `k`
(0-indexed, `base_delay = 1.0`, no jitter), and then raises a terminal
error embedding the last observed, redacted error; a 401 response causes
exactly 1 attempt and an immediate invalid/expired-key error (both
writers' `_request_with_retry`). -/
theorem c5_retry_policy (oracle : Nat → HttpOutcome) (key : String) :
    (pineconeRequestWithRetry oracle key).attempts ≤ MAX_RETRIES ∧
    (qdrantRequestWithRetry oracle key).attempts ≤ MAX_RETRIES ∧
    ((∀ k, k < MAX_RETRIES → RetryableOutcome (oracle k)) →
      pineconeRequestWithRetry oracle key =
        ⟨3, [BASE_DELAY * 2 ^ 0, BASE_DELAY * 2 ^ 1, BASE_DELAY * 2 ^ 2],
          .exhausted ("Pinecone: failed after 3 attempts. Last error: " ++
            lastErrorOf "Pinecone" key (oracle 2))⟩ ∧
      qdrantRequestWithRetry oracle key =
        ⟨3, [BASE_DELAY * 2 ^ 0, BASE_DELAY * 2 ^ 1, BASE_DELAY * 2 ^ 2],
          .exhausted ("Qdrant: failed after 3 attempts. Last error: " ++
            lastErrorOf "Qdrant" key (oracle 2))⟩) ∧
    (∀ body, oracle 0 = .resp 401 body →
      pineconeRequestWithRetry oracle key =
        ⟨1, [], .authError
          "Pinecone API key is invalid or expired. Check your key and try again."⟩ ∧
      qdrantRequestWithRetry oracle key =
        ⟨1, [], .authError
          "Qdrant API key is invalid or expired. Check your key and try again."⟩) := by
  refine ⟨?_, ?_, ?_, ?_⟩
  · simpa using retryAux_attempts_le "Pinecone" [200] oracle key MAX_RETRIES 0 none []
  · simpa using retryAux_attempts_le "Qdrant" [200] oracle key MAX_RETRIES 0 none []
  · intro h
    have h0 := h 0 (by norm_num [MAX_RETRIES])
    have h1 := h 1 (by norm_num [MAX_RETRIES])
    have h2 := h 2 (by norm_num [MAX_RETRIES])
    constructor
    · refine (retryAux_exhaust "Pinecone" oracle key h0 h1 h2).trans ?_
      rw [show ("Pinecone" ++ ": failed after " ++ toString MAX_RETRIES ++
        " attempts. Last error: " : String) =
        "Pinecone: failed after 3 attempts. Last error: " from by decide]
    · refine (retryAux_exhaust "Qdrant" oracle key h0 h1 h2).trans ?_
      rw [show ("Qdrant" ++ ": failed after " ++ toString MAX_RETRIES ++
        " attempts. Last error: " : String) =
        "Qdrant: failed after 3 attempts. Last error: " from by decide]
  · intro body hb
    constructor
    · refine (retryAux_auth "Pinecone" oracle key body hb).trans ?_
      rw [show ("Pinecone" ++ " API key is invalid or expired. " ++
        "Check your key and try again." : String) =
        "Pinecone API key is invalid or expired. Check your key and try again."
        from by decide]
    · refine (retryAux_auth "Qdrant" oracle key body hb).trans ?_
      rw [show ("Qdrant" ++ " API key is invalid or expired. " ++
        "Check your key and try again." : String) =
        "Qdrant API key is invalid or expired. Check your key and try again."
        from by decide]

theorem c5_retry_policy_witness :
    (∀ k, k < MAX_RETRIES →
      RetryableOutcome ((fun _ => HttpOutcome.resp 503 "boom") k)) ∧
    pineconeRequestWithRetry (fun _ => HttpOutcome.resp 503 "boom") "k" =
      ⟨3, [BASE_DELAY * 2 ^ 0, BASE_DELAY * 2 ^ 1, BASE_DELAY * 2 ^ 2],
        .exhausted ("Pinecone: failed after 3 attempts. Last error: " ++
          lastErrorOf "Pinecone" "k"
            ((fun _ => HttpOutcome.resp 503 "boom") 2))⟩ ∧
    lastErrorOf "Pinecone" "k" (HttpOutcome.resp 503 "boom") =
      "Pinecone returned 503: boom" ∧
    pineconeRequestWithRetry (fun _ => HttpOutcome.resp 401 "denied") "k" =
      ⟨1, [], .authError
        "Pinecone API key is invalid or expired. Check your key and try again."⟩ :=
  ⟨by decide,
   ((c5_retry_policy (fun _ => HttpOutcome.resp 503 "boom") "k").2.2.1
      (by decide)).1,
   by decide,
   ((c5_retry_policy (fun _ => HttpOutcome.resp 401 "denied") "k").2.2.2
      "denied" rfl).1⟩

/-! ## The payload builder claims -/

theorem pineconeKeepValue_iff (v : PyVal) :
    pineconeKeepValue v = true ↔ pineconeKeepSpec v := by
  have hstr : ∀ x : PyVal,
      (match x with | PyVal.vStr _ => true | _ => false) = true ↔
        ∃ s, x = PyVal.vStr s := by
    intro x; cases x <;> simp
  cases v with
  | vList l =>
    simp only [pineconeKeepValue, pineconeKeepSpec, List.all_eq_true]
    exact forall₂_congr (fun x _ => hstr x)
  | vNone => simp [pineconeKeepValue, pineconeKeepSpec]
  | vBool b => simp [pineconeKeepValue, pineconeKeepSpec]
  | vInt n => simp [pineconeKeepValue, pineconeKeepSpec]
  | vFloat q => simp [pineconeKeepValue, pineconeKeepSpec]
  | vStr s => simp [pineconeKeepValue, pineconeKeepSpec]
  | vDict d => simp [pineconeKeepValue, pineconeKeepSpec]

theorem qdrantKeepValue_iff (v : PyVal) :
    qdrantKeepValue v = true ↔ v ≠ PyVal.vNone := by
  cases v <;> simp [qdrantKeepValue]

/-- C8 (amended): the built record's metadata/payload holds exactly the
item entries whose key is outside the reserved set and distinct from the
id field and whose value passes the provider filter — for Pinecone a
string/int/float/bool or an all-string list, for Qdrant any value of type
str/int/float/bool/list/dict (so a `None` value is dropped even though it
is JSON-serializable). -/
theorem c8_metadata_filter (item : List (String × PyVal)) (idx : Nat)
    (id_field freshId : String) (k : String) (v : PyVal) :
    ((k, v) ∈ (build_pinecone_vector item idx id_field freshId).metadata ↔
      (k, v) ∈ item ∧ k ∉ SKIP_FIELDS ∧ k ≠ id_field ∧ pineconeKeepSpec v) ∧
    ((k, v) ∈ (build_qdrant_point item idx id_field freshId).payload ↔
      (k, v) ∈ item ∧ k ∉ SKIP_FIELDS ∧ k ≠ id_field ∧ v ≠ PyVal.vNone) := by
  constructor
  · simp only [build_pinecone_vector, List.mem_filter, Bool.and_eq_true,
      Bool.not_eq_true', bne_iff_ne, ne_eq, pineconeKeepValue_iff,
      List.contains, List.elem_eq_mem, decide_eq_false_iff_not]
    tauto
  · simp only [build_qdrant_point, List.mem_filter, Bool.and_eq_true,
      Bool.not_eq_true', bne_iff_ne, ne_eq, qdrantKeepValue_iff,
      List.contains, List.elem_eq_mem, decide_eq_false_iff_not]
    tauto

/-- C8 counterexample: the item `{"embedding": [1], "note": None}` has a
JSON-serializable value at the non-reserved key `"note"`, yet the Qdrant
point's payload drops it (the `isinstance` whitelist excludes
`NoneType`), so "the Qdrant record keeps every JSON-serializable value"
is false. -/
theorem c8_counterexample :
    jsonSerializable PyVal.vNone = true ∧
    ("note" ∉ SKIP_FIELDS) ∧
    "note" ≠ "chunk_id" ∧
    ("note", PyVal.vNone) ∈
      [("embedding", PyVal.vList [PyVal.vInt 1]), ("note", PyVal.vNone)] ∧
    (build_qdrant_point
      [("embedding", PyVal.vList [PyVal.vInt 1]), ("note", PyVal.vNone)]
      0 "chunk_id" "u").payload = [] :=
  ⟨rfl, by simp [SKIP_FIELDS], by decide, by simp, rfl⟩

/-! ## Lemmas about `str.replace` and redaction -/

theorem isPrefixOf_eq_true_iff : ∀ (l₁ l₂ : List Char),
    l₁.isPrefixOf l₂ = true ↔ l₁ <+: l₂
  | [], l₂ => by
    simp only [List.isPrefixOf, iff_true, true_iff]
    exact ⟨l₂, rfl⟩
  | a :: l₁, [] => by
    constructor
    · intro h; exact absurd h (by simp [List.isPrefixOf])
    · intro h
      obtain ⟨t, ht⟩ := h
      exact absurd ht (by simp)
  | a :: l₁, b :: l₂ => by
    simp only [List.isPrefixOf, Bool.and_eq_true, beq_iff_eq,
      List.cons_prefix_cons]
    exact and_congr Iff.rfl (isPrefixOf_eq_true_iff l₁ l₂)

theorem containsSub_append_left (t : List Char) (h : Char)
    (hh : t.head? = some h) :
    ∀ (r0 rest : List Char), h ∉ r0 →
      containsSub t (r0 ++ rest) = containsSub t rest := by
  intro r0
  induction r0 with
  | nil => intro rest _; rfl
  | cons a r0' ih =>
    intro rest hnotin
    have hne : h ≠ a := fun e => hnotin (e ▸ List.mem_cons_self a r0')
    have hpf : t.isPrefixOf (a :: (r0' ++ rest)) = false := by
      cases t with
      | nil => cases hh
      | cons th tt =>
        have hth : th = h := by simpa using hh
        subst hth
        simp [List.isPrefixOf, beq_eq_false_iff_ne.mpr hne]
    calc containsSub t ((a :: r0') ++ rest)
        = (t.isPrefixOf (a :: (r0' ++ rest)) || containsSub t (r0' ++ rest)) :=
          rfl
      _ = (false || containsSub t (r0' ++ rest)) := by rw [hpf]
      _ = containsSub t (r0' ++ rest) := Bool.false_or _
      _ = containsSub t rest :=
          ih rest (fun m => hnotin (List.mem_cons_of_mem a m))

theorem pyReplaceAux_tail_transfer (t r : List Char)
    (hd : ∀ c ∈ t, c ∉ r) (hr : r ≠ []) :
    ∀ (fuel : Nat) (s u : List Char), s.length ≤ fuel → u ≠ [] →
      (∃ v, v ++ u = t) →
      u.isPrefixOf (pyReplaceAux t r fuel s) = true → u.isPrefixOf s = true := by
  intro fuel
  induction fuel with
  | zero =>
    intro s u hl hu _ hpre
    have hs : s = [] := List.eq_nil_of_length_eq_zero (Nat.le_zero.mp hl)
    subst hs
    have : u = [] := by
      rw [isPrefixOf_eq_true_iff] at hpre
      exact List.prefix_nil.mp (by simpa [pyReplaceAux] using hpre)
    exact absurd this hu
  | succ f ih =>
    intro s u hl hu hsuffix hpre
    cases s with
    | nil =>
      have : u = [] := by
        rw [isPrefixOf_eq_true_iff] at hpre
        exact List.prefix_nil.mp (by simpa [pyReplaceAux] using hpre)
      exact absurd this hu
    | cons c s' =>
      by_cases hif : t.isPrefixOf (c :: s') = true
      · rw [show pyReplaceAux t r (f + 1) (c :: s') =
          r ++ pyReplaceAux t r f ((c :: s').drop t.length) from by
            simp [pyReplaceAux, hif]] at hpre
        exfalso
        obtain ⟨u0, u', rfl⟩ := List.exists_cons_of_ne_nil hu
        obtain ⟨r0, r', rfl⟩ := List.exists_cons_of_ne_nil hr
        simp only [List.cons_append, List.isPrefixOf, Bool.and_eq_true,
          beq_iff_eq] at hpre
        obtain ⟨v, hv⟩ := hsuffix
        have hu0t : u0 ∈ t := by
          rw [← hv]; exact List.mem_append_right v (List.mem_cons_self u0 u')
        exact hd u0 hu0t (hpre.1 ▸ List.mem_cons_self r0 r')
      · rw [show pyReplaceAux t r (f + 1) (c :: s') =
          c :: pyReplaceAux t r f s' from by simp [pyReplaceAux, hif]] at hpre
        obtain ⟨u0, u', rfl⟩ := List.exists_cons_of_ne_nil hu
        simp only [List.isPrefixOf, Bool.and_eq_true, beq_iff_eq] at hpre
        obtain ⟨he, hrest⟩ := hpre
        by_cases hu' : u' = []
        · subst hu'
          simp [List.isPrefixOf, he]
        · have hsuffix' : ∃ v', v' ++ u' = t := by
            obtain ⟨v, hv⟩ := hsuffix
            exact ⟨v ++ [u0], by simpa [List.append_assoc] using hv⟩
          have hlen : s'.length ≤ f := by
            simp only [List.length_cons] at hl; omega
          have := ih s' u' hlen hu' hsuffix' hrest
          simp [List.isPrefixOf, he, this]

theorem pyReplaceAux_no_occurrence (t r : List Char) (ht : t ≠ [])
    (hr : r ≠ []) (hd : ∀ c ∈ t, c ∉ r) :
    ∀ (fuel : Nat) (s : List Char), s.length ≤ fuel →
      containsSub t (pyReplaceAux t r fuel s) = false := by
  intro fuel
  induction fuel with
  | zero =>
    intro s hl
    have hs : s = [] := List.eq_nil_of_length_eq_zero (Nat.le_zero.mp hl)
    subst hs
    obtain ⟨t0, t', rfl⟩ := List.exists_cons_of_ne_nil ht
    rfl
  | succ f ih =>
    intro s hl
    cases s with
    | nil =>
      obtain ⟨t0, t', rfl⟩ := List.exists_cons_of_ne_nil ht
      rfl
    | cons c s' =>
      by_cases hif : t.isPrefixOf (c :: s') = true
      · rw [show pyReplaceAux t r (f + 1) (c :: s') =
          r ++ pyReplaceAux t r f ((c :: s').drop t.length) from by
            simp [pyReplaceAux, hif]]
        obtain ⟨t0, t', rfl⟩ := List.exists_cons_of_ne_nil ht
        rw [containsSub_append_left (t0 :: t') t0 rfl r _
          (hd t0 (List.mem_cons_self t0 t'))]
        apply ih
        simp only [List.length_drop, List.length_cons] at hl ⊢
        omega
      · rw [show pyReplaceAux t r (f + 1) (c :: s') =
          c :: pyReplaceAux t r f s' from by simp [pyReplaceAux, hif]]
        have hlen : s'.length ≤ f := by
          simp only [List.length_cons] at hl; omega
        have hrec := ih s' hlen
        simp only [containsSub, hrec, Bool.or_false]
        by_contra hcon
        rw [Bool.not_eq_false] at hcon
        obtain ⟨t0, t', rfl⟩ := List.exists_cons_of_ne_nil ht
        simp only [List.isPrefixOf, Bool.and_eq_true, beq_iff_eq] at hcon
        obtain ⟨ht0, hpre⟩ := hcon
        by_cases ht' : t' = []
        · subst ht'
          exact hif (by simp [List.isPrefixOf, ht0])
        · have htrans := pyReplaceAux_tail_transfer (t0 :: t') r hd hr f s' t'
            hlen ht' ⟨[t0], rfl⟩ hpre
          exact hif (by simp [List.isPrefixOf, ht0, htrans])

theorem containsSub_mono (u t : List Char) (hut : u.isPrefixOf t = true) :
    ∀ s, containsSub t s = true → containsSub u s = true := by
  intro s
  induction s with
  | nil =>
    intro h
    simp only [containsSub] at h ⊢
    rw [isPrefixOf_eq_true_iff] at h hut ⊢
    have := List.prefix_nil.mp h
    subst this
    exact hut
  | cons c s' ih =>
    intro h
    simp only [containsSub, Bool.or_eq_true] at h ⊢
    cases h with
    | inl hp =>
      left
      rw [isPrefixOf_eq_true_iff] at hp hut ⊢
      exact hut.trans hp
    | inr hc => exact Or.inr (ih hc)

theorem pyReplace_no_occurrence (t s : List Char) (ht : t ≠ [])
    (hd : ∀ c ∈ t, c ∉ REDACTED) :
    containsSub t (pyReplace t REDACTED s) = false := by
  have hR : REDACTED ≠ [] := by decide
  obtain ⟨a, l, h⟩ := List.exists_cons_of_ne_nil ht
  subst h
  show containsSub (a :: l) (pyReplaceAux (a :: l) REDACTED s.length s) = false
  exact pyReplaceAux_no_occurrence (a :: l) REDACTED (by simp) hR hd
    s.length s le_rfl

theorem sanitize_pass1_no_key (md kd : List Char) (hkd : kd ≠ [])
    (hd : ∀ c ∈ kd, c ∉ REDACTED) :
    containsSub kd (sanitize_pass1 md kd) = false := by
  unfold sanitize_pass1
  by_cases hc : containsSub kd md = true
  · rw [if_pos (by simp [hc, hkd])]
    exact pyReplace_no_occurrence kd md hkd hd
  · rw [if_neg (by simp [hc])]
    simpa using hc

theorem sanitize_facts (md kd : List Char) (hkd : kd ≠ [])
    (hd : ∀ c ∈ kd, c ∉ REDACTED) :
    containsSub kd (sanitize_pass2 (sanitize_pass1 md kd) kd) = false ∧
    (8 < kd.length →
      containsSub (kd.take 8) (sanitize_pass2 (sanitize_pass1 md kd) kd) =
        false) := by
  have hm1 : containsSub kd (sanitize_pass1 md kd) = false :=
    sanitize_pass1_no_key md kd hkd hd
  have hpref : (kd.take 8).isPrefixOf kd = true :=
    (isPrefixOf_eq_true_iff (kd.take 8) kd).mpr
      ⟨kd.drop 8, List.take_append_drop 8 kd⟩
  unfold sanitize_pass2
  by_cases h8 : 8 < kd.length
  · have hk8ne : kd.take 8 ≠ [] := by
      intro hc
      have := congrArg List.length hc
      simp only [List.length_take, List.length_nil] at this
      omega
    have hd8 : ∀ c ∈ kd.take 8, c ∉ REDACTED :=
      fun c hc => hd c (List.mem_of_mem_take hc)
    by_cases hc8 : containsSub (kd.take 8) (sanitize_pass1 md kd) = true
    · rw [if_pos (by simp [hkd, h8, hc8])]
      have h8f : containsSub (kd.take 8)
          (pyReplace (kd.take 8) REDACTED (sanitize_pass1 md kd)) = false :=
        pyReplace_no_occurrence (kd.take 8) _ hk8ne hd8
      refine ⟨?_, fun _ => h8f⟩
      by_contra hcon
      rw [Bool.not_eq_false] at hcon
      have := containsSub_mono (kd.take 8) kd hpref _ hcon
      rw [h8f] at this
      exact Bool.noConfusion this
    · rw [if_neg (by simp [hc8])]
      exact ⟨hm1, fun _ => by simpa using hc8⟩
  · rw [if_neg (by simp [h8])]
    exact ⟨hm1, fun hcon => absurd hcon h8⟩

/-- C2 (amended): for every error message and every non-empty API key
none of whose characters occurs in the marker `[REDACTED]`, the output of
`_sanitize_error` contains no substring equal to the full key and, when
the key is longer than 8 characters, none equal to its first 8
characters.  (The character condition is forced by the counterexample
`c2_redaction_counterexample`: a key whose 8-character prefix is itself
`REDACTED` is reintroduced by the marker.) -/
theorem c2_redaction_amended (m k : String) (hk : k ≠ "")
    (hd : ∀ c ∈ k.data, c ∉ REDACTED) :
    strContains k (sanitize_error m k) = false ∧
    (8 < k.length →
      strContains ⟨k.data.take 8⟩ (sanitize_error m k) = false) := by
  have hkd : k.data ≠ [] := by
    intro h; apply hk; cases k; simp_all
  exact sanitize_facts m.data k.data hkd hd

/-- C2 counterexample: with the API key literally equal to `REDACTED`
(8 characters) and the message equal to the key, the sanitized message is
`[REDACTED]`, which still contains the full key (and its 8-character
prefix) as a substring — the replacement marker reintroduces it.  So the
claim as stated (for *every* key) is false. -/
theorem c2_redaction_counterexample :
    sanitize_error "REDACTED" "REDACTED" = "[REDACTED]" ∧
    strContains "REDACTED" (sanitize_error "REDACTED" "REDACTED") = true := by
  constructor
  · decide
  · decide

theorem c2_redaction_amended_witness :
    (("secretkey0123" : String) ≠ "" ∧
      ∀ c ∈ ("secretkey0123" : String).data, c ∉ REDACTED) ∧
    (strContains "secretkey0123"
        (sanitize_error "Error: secretkey0123 denied" "secretkey0123") =
      false ∧
     (8 < ("secretkey0123" : String).length →
       strContains ⟨("secretkey0123" : String).data.take 8⟩
          (sanitize_error "Error: secretkey0123 denied" "secretkey0123") =
        false)) ∧
    sanitize_error "Error: secretkey0123 denied" "secretkey0123" =
      "Error: [REDACTED] denied" :=
  ⟨⟨by decide, by decide⟩,
   c2_redaction_amended "Error: secretkey0123 denied" "secretkey0123"
     (by decide) (by decide),
   by decide⟩

/-! ## Lemmas about `validate_input` -/

theorem validate_input_ok_elim (i : ActorInput) (v : ValidatedInput)
    (h : validate_input i = .ok v) :
    checkProvider i = .ok v.provider ∧
    checkApiKey i = .ok v.api_key ∧
    checkIndexName i = .ok v.index_name ∧
    checkEnvironment v.provider i = .ok v.environment ∧
    checkNamespace i = .ok v.nspace ∧
    checkDistanceMetric i = .ok v.distance_metric ∧
    checkSources i = .ok (v.dataset_id, v.vectors) ∧
    checkBatchSize v.provider i = .ok v.batch_size ∧
    checkIdField i = .ok v.id_field := by
  unfold validate_input at h
  cases h1 : checkProvider i with
  | error e => rw [h1] at h; exact Except.noConfusion h
  | ok provider =>
  simp only [h1] at h
  cases h2 : checkApiKey i with
  | error e => rw [h2] at h; exact Except.noConfusion h
  | ok api_key =>
  simp only [h2] at h
  cases h3 : checkIndexName i with
  | error e => rw [h3] at h; exact Except.noConfusion h
  | ok index_name =>
  simp only [h3] at h
  cases h4 : checkEnvironment provider i with
  | error e => rw [h4] at h; exact Except.noConfusion h
  | ok environment =>
  simp only [h4] at h
  cases h5 : checkNamespace i with
  | error e => rw [h5] at h; exact Except.noConfusion h
  | ok ns =>
  simp only [h5] at h
  cases h6 : checkDistanceMetric i with
  | error e => rw [h6] at h; exact Except.noConfusion h
  | ok dm =>
  simp only [h6] at h
  cases h7 : checkSources i with
  | error e => rw [h7] at h; exact Except.noConfusion h
  | ok sources =>
  simp only [h7] at h
  cases h8 : checkBatchSize provider i with
  | error e => rw [h8] at h; exact Except.noConfusion h
  | ok bs =>
  simp only [h8] at h
  cases h9 : checkIdField i with
  | error e => rw [h9] at h; exact Except.noConfusion h
  | ok idf =>
  simp only [h9] at h
  have hv : v = ⟨api_key, provider, index_name, environment, ns, dm,
      sources.1, sources.2, bs, idf⟩ := by
    cases h; rfl
  subst hv
  exact ⟨rfl, rfl, rfl, h4, rfl, rfl, rfl, h8, rfl⟩

theorem checkEnvironment_qdrant_ok (i : ActorInput) (o : Option String)
    (h : checkEnvironment "qdrant" i = .ok o) :
    ∃ e, o = some e ∧ qdrantUrlOk e = true := by
  unfold checkEnvironment at h
  rw [if_pos (show (("qdrant" : String) == "qdrant") = true from rfl)] at h
  cases henv : i.environment with
  | none => rw [henv] at h; exact Except.noConfusion h
  | some pv =>
    rw [henv] at h
    cases pv with
    | vStr e =>
      dsimp only at h
      by_cases hempty : e.isEmpty = true
      · rw [if_pos hempty] at h; exact Except.noConfusion h
      · rw [if_neg hempty] at h
        by_cases hurl : qdrantUrlOk (pyRstripSlash (pyStrip e)) = true
        · rw [if_pos hurl] at h
          refine ⟨pyRstripSlash (pyStrip e), ?_, hurl⟩
          cases h; rfl
        · rw [if_neg hurl] at h; exact Except.noConfusion h
    | vNone => exact Except.noConfusion h
    | vBool b => exact Except.noConfusion h
    | vInt n => exact Except.noConfusion h
    | vFloat q => exact Except.noConfusion h
    | vList l => exact Except.noConfusion h
    | vDict d => exact Except.noConfusion h

theorem checkSources_ok_cases (i : ActorInput)
    (p : Option String × Option (List PyVal)) (h : checkSources i = .ok p) :
    (∃ ds, p = (some ds, none)) ∨ (∃ l, p = (none, some l)) := by
  unfold checkSources at h
  by_cases hnone : (!has_dataset i && !has_vectors i) = true
  · rw [if_pos hnone] at h; exact Except.noConfusion h
  · rw [if_neg hnone] at h
    by_cases hds : has_dataset i = true
    · rw [if_pos hds] at h
      by_cases hpat : datasetIdOk (pyStrip
          (match i.dataset_id with | some (.vStr s) => s | _ => "")) = true
      · rw [if_neg (by simp [hpat])] at h
        left
        exact ⟨_, by cases h; rfl⟩
      · rw [if_pos (by simp [hpat])] at h
        exact Except.noConfusion h
    · rw [if_neg hds] at h
      by_cases hcount : MAX_VECTORS_COUNT <
          (match i.vectors with | some (.vList l) => l | _ => []).length
      · rw [if_pos hcount] at h; exact Except.noConfusion h
      · rw [if_neg hcount] at h
        cases hloop : checkVectorItems 0
            (match i.vectors with | some (.vList l) => l | _ => []) with
        | some msg => rw [hloop] at h; exact Except.noConfusion h
        | none =>
          rw [hloop] at h
          right
          exact ⟨_, by cases h; rfl⟩

theorem checkSources_dataset_priority (i : ActorInput)
    (p : Option String × Option (List PyVal)) (h : checkSources i = .ok p)
    (hds : has_dataset i = true) : p.1.isSome = true ∧ p.2 = none := by
  unfold checkSources at h
  rw [if_neg (by simp [hds])] at h
  rw [if_pos hds] at h
  by_cases hpat : datasetIdOk (pyStrip
      (match i.dataset_id with | some (.vStr s) => s | _ => "")) = true
  · rw [if_neg (by simp [hpat])] at h
    cases h; exact ⟨rfl, rfl⟩
  · rw [if_pos (by simp [hpat])] at h
    exact Except.noConfusion h

theorem checkSources_neither (i : ActorInput) (h1 : has_dataset i = false)
    (h2 : has_vectors i = false) :
    checkSources i = .error ("No input provided. Supply either 'dataset_id' (from RAG Embedding " ++
      "Generator output) or 'vectors' (raw vector array).") := by
  unfold checkSources
  rw [if_pos (by simp [h1, h2])]

theorem checkDistanceMetric_err (i : ActorInput) (d : String)
    (hf : i.distance_metric = some (.vStr d))
    (hbad : d ∉ VALID_DISTANCE_METRICS) :
    checkDistanceMetric i = .error ("Invalid distance metric '" ++ d ++
      "'. Must be one of: Cosine, Dot, Euclid.") := by
  unfold checkDistanceMetric
  rw [hf]
  dsimp only [Option.getD_some]
  rw [if_neg hbad]

theorem checkNamespace_err (i : ActorInput) (ns : String)
    (hf : i.nspace = some (.vStr ns))
    (hne : (pyStrip ns).isEmpty = false)
    (hbad : namespaceOk (pyStrip ns) = false) :
    checkNamespace i = .error ("Invalid namespace: '" ++ pyStrip ns ++
      "'. Must be alphanumeric with hyphens/underscores/dots, max 64 characters.") := by
  unfold checkNamespace
  rw [hf]
  dsimp only [Option.getD_some]
  rw [if_pos (by simp [hne, hbad])]

/-- C1: for inputs with provider `qdrant`, validation accepts exactly the
environment URLs whose processed form (stripped, trailing slashes
removed) matches `_QDRANT_URL_PATTERN` under Python `re.match` semantics;
every successful qdrant validation stores a matching URL
(SSRF soundness), `https://evil.com` is rejected, and
`https://abc.us-east.cloud.qdrant.io:6333` is accepted. -/
theorem c1_qdrant_url_validation :
    (∀ (i : ActorInput) (v : ValidatedInput), validate_input i = .ok v →
      v.provider = "qdrant" →
      ∃ e, v.environment = some e ∧ qdrantUrlOk e = true) ∧
    (∀ env : String, (validate_input (qdrantEnvProbe env)).isOk =
      qdrantUrlOk (pyRstripSlash (pyStrip env))) ∧
    (validate_input (qdrantEnvProbe "https://evil.com")).isOk = false ∧
    (validate_input
      (qdrantEnvProbe "https://abc.us-east.cloud.qdrant.io:6333")).isOk =
      true := by
  refine ⟨?_, ?_, by decide, by decide⟩
  · intro i v h hq
    have henv := (validate_input_ok_elim i v h).2.2.2.1
    rw [hq] at henv
    exact checkEnvironment_qdrant_ok i v.environment henv
  · intro env
    by_cases hE : env = ""
    · subst hE; decide
    · have hne : env.isEmpty = false := by
        rw [Bool.eq_false_iff]
        intro hc; exact hE ((String.isEmpty_iff env).mp hc)
      unfold validate_input
      rw [show checkProvider (qdrantEnvProbe env) = .ok "qdrant" from rfl]
      dsimp only
      rw [show checkApiKey (qdrantEnvProbe env) = .ok "testkey" from rfl]
      dsimp only
      rw [show checkIndexName (qdrantEnvProbe env) = .ok "col" from rfl]
      dsimp only
      unfold checkEnvironment
      rw [if_pos (show (("qdrant" : String) == "qdrant") = true from rfl)]
      rw [show (qdrantEnvProbe env).environment = some (.vStr env) from rfl]
      dsimp only
      rw [if_neg (by simp [hne])]
      by_cases hurl : qdrantUrlOk (pyRstripSlash (pyStrip env)) = true
      · rw [if_pos hurl, hurl]
        rfl
      · have hf : qdrantUrlOk (pyRstripSlash (pyStrip env)) = false := by
          simpa using hurl
        rw [if_neg hurl, hf]
        rfl

theorem c1_qdrant_url_validation_witness :
    validate_input
        (qdrantEnvProbe "https://abc.us-east.cloud.qdrant.io:6333") =
      .ok c1Output ∧
    c1Output.provider = "qdrant" ∧
    (∃ e, c1Output.environment = some e ∧ qdrantUrlOk e = true) :=
  ⟨rfl, rfl,
   c1_qdrant_url_validation.1
     (qdrantEnvProbe "https://abc.us-east.cloud.qdrant.io:6333") c1Output
     rfl rfl⟩

/-- C3 counterexample: an input supplying both a valid `dataset_id` and a
non-empty `vectors` list passes validation (with the dataset kept and the
vectors discarded), so "validate_input returns an error whenever the
input supplies both data sources" is false. -/
theorem c3_both_sources_counterexample :
    has_dataset c3BothInput = true ∧
    has_vectors c3BothInput = true ∧
    (validate_input c3BothInput).isOk = true ∧
    ((validate_input c3BothInput).toOption.map
      (fun v => (v.dataset_id, v.vectors.isNone))) = some (some "ds1", true) :=
  ⟨by decide, by decide, by decide, by decide⟩

/-- C3 (amended): validation errors whenever *neither* source is supplied;
when *both* are supplied it does not error on that account — the dataset
id takes priority and the vectors field of the result is `None`. -/
theorem c3_sources_amended (i : ActorInput) :
    (has_dataset i = false → has_vectors i = false →
      (validate_input i).isOk = false) ∧
    (∀ v, validate_input i = .ok v → has_dataset i = true →
      v.dataset_id.isSome = true ∧ v.vectors = none) := by
  constructor
  · intro h1 h2
    unfold validate_input
    cases checkProvider i with
    | error e => rfl
    | ok provider =>
    dsimp only
    cases checkApiKey i with
    | error e => rfl
    | ok api_key =>
    dsimp only
    cases checkIndexName i with
    | error e => rfl
    | ok index_name =>
    dsimp only
    cases checkEnvironment provider i with
    | error e => rfl
    | ok environment =>
    dsimp only
    cases checkNamespace i with
    | error e => rfl
    | ok ns =>
    dsimp only
    cases checkDistanceMetric i with
    | error e => rfl
    | ok dm =>
    dsimp only
    rw [checkSources_neither i h1 h2]
    rfl
  · intro v h hds
    have hsrc := (validate_input_ok_elim i v h).2.2.2.2.2.2.1
    have := checkSources_dataset_priority i (v.dataset_id, v.vectors) hsrc hds
    exact ⟨this.1, this.2⟩

theorem c3_sources_amended_witness :
    (has_dataset { } = false ∧ has_vectors ({ } : ActorInput) = false ∧
      (validate_input { }).isOk = false) ∧
    (validate_input c3BothInput = .ok
      ⟨"pk", "pinecone", "idx", none, "", "Cosine", some "ds1", none, 100,
        "chunk_id"⟩ ∧
      has_dataset c3BothInput = true ∧
      (⟨"pk", "pinecone", "idx", none, "", "Cosine", some "ds1", none, 100,
        "chunk_id"⟩ : ValidatedInput).dataset_id.isSome = true ∧
      (⟨"pk", "pinecone", "idx", none, "", "Cosine", some "ds1", none, 100,
        "chunk_id"⟩ : ValidatedInput).vectors = none) :=
  ⟨⟨by decide, by decide, (c3_sources_amended { }).1 (by decide) (by decide)⟩,
   ⟨rfl, by decide,
    (c3_sources_amended c3BothInput).2 _ rfl (by decide)⟩⟩

/-- C4: whenever validation succeeds, exactly one of `dataset_id` and
`vectors` in the returned `ValidatedInput` is set — never both, never
neither. -/
theorem c4_exactly_one_source (i : ActorInput) (v : ValidatedInput)
    (h : validate_input i = .ok v) :
    (v.dataset_id.isSome && v.vectors.isSome) = false ∧
    (v.dataset_id.isSome || v.vectors.isSome) = true := by
  have hsrc := (validate_input_ok_elim i v h).2.2.2.2.2.2.1
  rcases checkSources_ok_cases i _ hsrc with ⟨ds, hp⟩ | ⟨l, hp⟩
  · have h1 : v.dataset_id = some ds := congrArg Prod.fst hp
    have h2 : v.vectors = none := congrArg Prod.snd hp
    rw [h1, h2]
    exact ⟨rfl, rfl⟩
  · have h1 : v.dataset_id = none := congrArg Prod.fst hp
    have h2 : v.vectors = some l := congrArg Prod.snd hp
    rw [h1, h2]
    exact ⟨rfl, rfl⟩

theorem c4_exactly_one_source_witness :
    validate_input c4Input = .ok c4Output ∧
    ((c4Output.dataset_id.isSome && c4Output.vectors.isSome) = false ∧
     (c4Output.dataset_id.isSome || c4Output.vectors.isSome) = true) :=
  ⟨rfl, c4_exactly_one_source c4Input c4Output rfl⟩

/-- C9: control characters are *not* stripped: `sanitize_text` exists but
is never called by `validate_input`, so a control character in the API
key survives into the returned `ValidatedInput` (and strings embedded in
error messages are likewise unsanitized), contradicting the module's own
documentation ("All string inputs sanitized against control
characters"). -/
theorem c9_control_chars_not_stripped :
    ((validate_input c9Input).toOption.map ValidatedInput.api_key) =
      some "a\x01b" ∧
    hasControlChar "a\x01b" = true ∧
    sanitize_text "a\x01b" = "ab" ∧
    hasControlChar (sanitize_text "a\x01b") = false :=
  ⟨by decide, by decide, by decide, by decide⟩

/-- C10: the distance-metric whitelist is enforced even when the provider
is pinecone, and the namespace pattern is enforced even when the provider
is qdrant. -/
theorem c10_cross_provider_checks :
    (∀ (i : ActorInput) (d : String),
      i.provider = some (.vStr "pinecone") →
      i.distance_metric = some (.vStr d) → d ∉ VALID_DISTANCE_METRICS →
      (validate_input i).isOk = false) ∧
    (∀ (i : ActorInput) (ns : String),
      i.provider = some (.vStr "qdrant") →
      i.nspace = some (.vStr ns) → (pyStrip ns).isEmpty = false →
      namespaceOk (pyStrip ns) = false →
      (validate_input i).isOk = false) := by
  constructor
  · intro i d _ hdm hbad
    unfold validate_input
    cases checkProvider i with
    | error e => rfl
    | ok provider =>
    dsimp only
    cases checkApiKey i with
    | error e => rfl
    | ok api_key =>
    dsimp only
    cases checkIndexName i with
    | error e => rfl
    | ok index_name =>
    dsimp only
    cases checkEnvironment provider i with
    | error e => rfl
    | ok environment =>
    dsimp only
    cases checkNamespace i with
    | error e => rfl
    | ok ns =>
    dsimp only
    rw [checkDistanceMetric_err i d hdm hbad]
    rfl
  · intro i ns _ hf hne hbad
    unfold validate_input
    cases checkProvider i with
    | error e => rfl
    | ok provider =>
    dsimp only
    cases checkApiKey i with
    | error e => rfl
    | ok api_key =>
    dsimp only
    cases checkIndexName i with
    | error e => rfl
    | ok index_name =>
    dsimp only
    cases checkEnvironment provider i with
    | error e => rfl
    | ok environment =>
    dsimp only
    rw [checkNamespace_err i ns hf hne hbad]
    rfl

theorem c10_cross_provider_checks_witness :
    (c10PineInput.provider = some (.vStr "pinecone") ∧
      c10PineInput.distance_metric = some (.vStr "cosine") ∧
      "cosine" ∉ VALID_DISTANCE_METRICS ∧
      (validate_input c10PineInput).isOk = false) ∧
    (c10QdrInput.provider = some (.vStr "qdrant") ∧
      c10QdrInput.nspace = some (.vStr "bad ns!") ∧
      (pyStrip "bad ns!").isEmpty = false ∧
      namespaceOk (pyStrip "bad ns!") = false ∧
      (validate_input c10QdrInput).isOk = false) :=
  ⟨⟨rfl, rfl, by decide,
    c10_cross_provider_checks.1 c10PineInput "cosine" rfl rfl (by decide)⟩,
   ⟨rfl, rfl, by decide, by decide,
    c10_cross_provider_checks.2 c10QdrInput "bad ns!" rfl rfl (by decide)
      (by decide)⟩⟩
